import Mathlib

/-!
Verification of the ny-plumber-voice-agent server against its specification.

The development shallowly embeds the code of `src/server.ts` and
`src/leadStore.ts`: environment/config loading (`mustEnv` and the config
constants), the E.164 destination check (`assertE164`), and the execution
functions of the tools `create_lead`, `send_sms_to_number` and
`escalate_to_oncall`.  Side effects (event-log appends, lead-store appends,
messaging-gateway sends) are recorded as an ordered trace of actions, so that
statements about "X happens before Y" and "exactly one record is written" are
about the trace a tool execution produces.  Sources of nondeterminism that the
code reads from the outside world (the generated UUID, the wall clock, the
provider's message id) are passed in as parameters.
-/

namespace VoiceAgent

/-- Urgency values of the `create_lead` argument schema
(`z.enum(["low", "normal", "emergency"])`). -/
inductive Urgency where
  | low
  | normal
  | emergency
deriving DecidableEq, Repr

/-- The `Lead` record type of `leadStore.ts`: identification fields plus
optional free-text intake fields. -/
structure Lead where
  id : String
  createdAt : String
  businessName : String
  callerPhone : Option String := none
  callerName : Option String := none
  serviceAddress : Option String := none
  issue : Option String := none
  urgency : Option Urgency := none
  preferredTime : Option String := none
  notes : Option String := none
  source : Option String := none
deriving DecidableEq, Repr

/-- The events the server appends to `events.jsonl` via `appendEvent`, one
constructor per `type` tag occurring in `server.ts`.  The write-time `ts`
field that `appendEvent` prepends is orthogonal to every claim and is not
modelled. -/
inductive Event where
  | smsAttempt (toNumber : String) (messagePreview : String)
  | escalation (reason : String) (callerPhone serviceAddress issue : Option String)
  | callSummary (summary : String)
  | transportEvent (evtType : String)
  | sessionError (err : String)
  | realtimeConnected
deriving DecidableEq, Repr

/-- One externally visible side effect of a tool execution, in the order the
code performs them: an event-log append, a lead-store append, or a
messaging-gateway send (`twilioClient.messages.create` with from, to, body). -/
inductive Action where
  | logEvent (e : Event)
  | writeLead (l : Lead)
  | gatewaySend (sender toNumber body : String)
deriving DecidableEq, Repr

/-- Whether an action is an event-log append. -/
def Action.isLogEvent : Action → Bool
  | Action.logEvent _ => true
  | _ => false

/-- The environment variables `server.ts` reads; `none` models an absent
variable. -/
structure Env where
  port : Option String := none
  publicHost : Option String := none
  businessName : Option String := none
  oncallPhone : Option String := none
  openaiApiKey : Option String := none
  twilioAccountSid : Option String := none
  twilioAuthToken : Option String := none
  twilioFromNumber : Option String := none
deriving DecidableEq, Repr

/-- `mustEnv` of `server.ts`: returns the value, or fails (the process calls
`process.exit(1)`) when the variable is absent or empty — JavaScript `!v` is
true for both `undefined` and `""`. -/
def mustEnv (v : Option String) : Option String :=
  match v with
  | none => none
  | some s => if s == "" then none else some s

/-- The JavaScript idiom `process.env.X || d`: the default applies when the
variable is absent or empty. -/
def envOrDefault (v : Option String) (d : String) : String :=
  match v with
  | none => d
  | some s => if s == "" then d else s

/-- The configuration constants computed at the top of `server.ts`.  `port`
keeps the string selected by `process.env.PORT || 5050` (the subsequent
`Number(...)` conversion is irrelevant to the claims). -/
structure Config where
  port : String
  publicHost : Option String
  businessName : String
  oncallPhone : String
  openaiApiKey : String
  twilioAccountSid : String
  twilioAuthToken : String
  twilioFromNumber : String
deriving DecidableEq, Repr

/-- Startup configuration loading, `server.ts` lines 31-41: `ONCALL_PHONE` and
`OPENAI_API_KEY` go through `mustEnv` (in that order) and abort startup when
absent; `PORT` and `BUSINESS_NAME` take defaults; `PUBLIC_HOST` stays
optional; the three `TWILIO_*` variables default to the empty string.
`none` models the process refusing to start. -/
def loadConfig (env : Env) : Option Config :=
  match mustEnv env.oncallPhone with
  | none => none
  | some oncall =>
    match mustEnv env.openaiApiKey with
    | none => none
    | some key =>
      some
        { port := envOrDefault env.port "5050"
          publicHost := env.publicHost
          businessName := envOrDefault env.businessName "NY Plumbing (Pilot)"
          oncallPhone := oncall
          openaiApiKey := key
          twilioAccountSid := env.twilioAccountSid.getD ""
          twilioAuthToken := env.twilioAuthToken.getD ""
          twilioFromNumber := env.twilioFromNumber.getD "" }

/-- `twilioClient` is non-null exactly when `TWILIO_ACCOUNT_SID && TWILIO_AUTH_TOKEN`
is truthy (`server.ts` lines 43-44). -/
def twilioClientPresent (cfg : Config) : Bool :=
  !(cfg.twilioAccountSid == "") && !(cfg.twilioAuthToken == "")

/-- The send tools skip when `!twilioClient || !TWILIO_FROM_NUMBER`; this is
the negation of that skip condition. -/
def smsSendEnabled (cfg : Config) : Bool :=
  twilioClientPresent cfg && !(cfg.twilioFromNumber == "")

/-- The error message thrown by `assertE164`. -/
def e164Message : String := "Phone must be E.164 format like +15551234567"

/-- `assertE164` of `server.ts` lines 46-50: throws unless the phone starts
with "+" and has length at least 11.  JavaScript `phone.startsWith("+")` is
embedded as "the character sequence of `"+"` is a prefix of the character
sequence of `phone`", and `phone.length` as the character count. -/
def assertE164 (phone : String) : Except String Unit :=
  if ¬ "+".data.isPrefixOf phone.data ∨ phone.length < 11 then
    Except.error e164Message
  else
    Except.ok ()

/-- The argument schema of `create_lead` after zod parsing, except `urgency`,
which is kept as an `Option` here so that the schema-level
`.default("normal")` is an explicit step of `storedLead`.  The schema declares
no `id`, `createdAt`, `businessName` or `source` field, and `z.object` strips
unknown keys, so the parsed arguments contain exactly these seven fields. -/
structure CreateLeadArgs where
  callerPhone : Option String := none
  callerName : Option String := none
  serviceAddress : Option String := none
  issue : Option String := none
  urgency : Option Urgency := none
  preferredTime : Option String := none
  notes : Option String := none
deriving DecidableEq, Repr

/-- The lead object built by `create_lead`: `{ id, createdAt, businessName,
...input, source: "twilio_call" }` with `id` from `randomUUID()` and
`createdAt` from the clock, both passed in as parameters here. -/
def storedLead (cfg : Config) (id createdAt : String) (args : CreateLeadArgs) : Lead :=
  { id := id
    createdAt := createdAt
    businessName := cfg.businessName
    callerPhone := args.callerPhone
    callerName := args.callerName
    serviceAddress := args.serviceAddress
    issue := args.issue
    urgency := some (args.urgency.getD Urgency.normal)
    preferredTime := args.preferredTime
    notes := args.notes
    source := some "twilio_call" }

/-- `createLeadTool.execute`: builds the lead, appends it to the lead store,
and returns the background result text. -/
def createLeadExecute (cfg : Config) (id createdAt : String) (args : CreateLeadArgs) :
    List Action × String :=
  ([Action.writeLead (storedLead cfg id createdAt args)], "Lead stored with id " ++ id)

/-- The opt-out suffix appended to every outbound SMS body. -/
def optOutSuffix : String := "\n\nReply STOP to opt out."

/-- `sendSmsTool.execute` (`server.ts` lines 93-109): validates the
destination with `assertE164` (a thrown error yields an empty trace), appends
one `sms_attempt` event carrying the destination and `message.slice(0, 80)`,
then either returns the skipped result (when the gateway is unconfigured) or
performs the gateway send and returns the sid confirmation.  `gatewaySid` is
the message id the provider would return. -/
def sendSmsExecute (cfg : Config) (gatewaySid toNumber message : String) :
    List Action × Except String String :=
  match assertE164 toNumber with
  | Except.error e => ([], Except.error e)
  | Except.ok _ =>
    let attempt := Action.logEvent (Event.smsAttempt toNumber (message.take 80))
    if smsSendEnabled cfg = false then
      ([attempt], Except.ok "Twilio not configured; SMS skipped.")
    else
      ([attempt,
        Action.gatewaySend cfg.twilioFromNumber toNumber (message ++ optOutSuffix)],
       Except.ok ("SMS sent: sid=" ++ gatewaySid))

/-- The argument schema of `escalate_to_oncall` after zod parsing, with the
`.default("emergency")` of `reason` kept as an explicit `Option`. -/
structure EscalateArgs where
  callerPhone : Option String := none
  serviceAddress : Option String := none
  issue : Option String := none
  reason : Option String := none
deriving DecidableEq, Repr

/-- The alert body built by `escalate_to_oncall` (`server.ts` lines 129-134). -/
def escalationBody (cfg : Config) (args : EscalateArgs) (reason : String) : String :=
  "🚨 EMERGENCY LEAD (" ++ cfg.businessName ++ ")\n"
    ++ "Reason: " ++ reason ++ "\n"
    ++ (match args.issue with
        | some i => "Issue: " ++ i ++ "\n"
        | none => "")
    ++ (match args.serviceAddress with
        | some a => "Address: " ++ a ++ "\n"
        | none => "")
    ++ (match args.callerPhone with
        | some c => "Caller: " ++ c ++ "\n"
        | none => "")

/-- `escalateTool.execute` (`server.ts` lines 112-144): appends one escalation
event, then either returns the skipped result or sends the alert to the
configured `ONCALL_PHONE` and returns the sid confirmation. -/
def escalateExecute (cfg : Config) (gatewaySid : String) (args : EscalateArgs) :
    List Action × String :=
  let reason := args.reason.getD "emergency"
  let ev := Action.logEvent
    (Event.escalation reason args.callerPhone args.serviceAddress args.issue)
  if smsSendEnabled cfg = false then
    ([ev], "Twilio not configured; escalation SMS skipped.")
  else
    ([ev,
      Action.gatewaySend cfg.twilioFromNumber cfg.oncallPhone
        (escalationBody cfg args reason)],
     "Escalation SMS sent: sid=" ++ gatewaySid)

/-- One key-value pair when the optional field is present, nothing when it is
absent: this is how `JSON.stringify` treats the spread of a parsed zod object,
where unsupplied optional fields are simply missing keys. -/
def optField (k : String) (v : Option String) : List (String × String) :=
  match v with
  | some s => [(k, s)]
  | none => []

/-- The serialized form of an urgency value. -/
def urgencyStr : Urgency → String
  | Urgency.low => "low"
  | Urgency.normal => "normal"
  | Urgency.emergency => "emergency"

/-- The JSON object `appendLead` writes for a lead, as an association list of
its present keys: mandatory fields always appear, optional fields appear
exactly when supplied. -/
def leadJson (l : Lead) : List (String × String) :=
  [("id", l.id), ("createdAt", l.createdAt), ("businessName", l.businessName)]
    ++ optField "callerPhone" l.callerPhone
    ++ optField "callerName" l.callerName
    ++ optField "serviceAddress" l.serviceAddress
    ++ optField "issue" l.issue
    ++ optField "urgency" (l.urgency.map urgencyStr)
    ++ optField "preferredTime" l.preferredTime
    ++ optField "notes" l.notes
    ++ optField "source" l.source

/-- The event log as the bridge's session handlers see it.  `sinkFaulty`
models an I/O fault of the underlying sink: `appendEvent` in `leadStore.ts`
calls `fs.appendFileSync`, which throws when the write fails. -/
structure EventLog where
  entries : List Event
  sinkFaulty : Bool
deriving DecidableEq, Repr

/-- `appendEvent` of `leadStore.ts`: appends the record, or throws when the
sink faults — the function contains no try/catch. -/
def appendEvent (log : EventLog) (e : Event) : Except String EventLog :=
  if log.sinkFaulty then Except.error "EIO: append failed"
  else Except.ok { log with entries := log.entries ++ [e] }

/-- The `session.on("transport_event", ...)` handler (`server.ts` lines
238-242): its whole body is one `appendEvent` call with `evt?.type ||
"unknown"`; any throw from `appendEvent` propagates out of the handler. -/
def onTransportEvent (log : EventLog) (evtType : Option String) : Except String EventLog :=
  appendEvent log (Event.transportEvent (evtType.getD "unknown"))

/-- The `session.on("error", ...)` handler (`server.ts` lines 244-246): one
`appendEvent` call with the stringified error, no try/catch. -/
def onSessionError (log : EventLog) (err : String) : Except String EventLog :=
  appendEvent log (Event.sessionError err)

/-- The resources a call session holds: the backend connection and the two
event subscriptions installed by the media-stream handler. -/
structure SessionHandle where
  backendConnected : Bool
  transportSubscribed : Bool
  errorSubscribed : Bool
deriving DecidableEq, Repr

/-- Modelled from the spec: session teardown.  The repository's media-stream
handler installs the session and its two subscriptions but contains no
teardown code of its own — teardown is performed inside the external
realtime-session library whose code is not part of this repository.  The spec
states that on teardown "the bridge releases the backend connection and both
event subscriptions idempotently — repeated teardown calls are no-ops" and
that teardown emits no duplicate error events.  Accordingly teardown releases
all three resources and produces no events; a second call on an already
released handle changes nothing. -/
def teardown (s : SessionHandle) : SessionHandle × List Event :=
  if s.backendConnected = false ∧ s.transportSubscribed = false ∧ s.errorSubscribed = false then
    (s, [])
  else
    ({ backendConnected := false, transportSubscribed := false, errorSubscribed := false }, [])

/-- A deployment with all Twilio credentials present, used to exercise the
configured-gateway branches on concrete inputs. -/
def cfgFull : Config :=
  { port := "5050"
    publicHost := none
    businessName := "NY Plumbing (Pilot)"
    oncallPhone := "+15550001111"
    openaiApiKey := "sk-test"
    twilioAccountSid := "AC123"
    twilioAuthToken := "token123"
    twilioFromNumber := "+15552223333" }

/-- A deployment with the Twilio credentials left blank (their `|| ""`
defaults), used to exercise the skipped-result branches. -/
def cfgNoGateway : Config :=
  { port := "5050"
    publicHost := none
    businessName := "NY Plumbing (Pilot)"
    oncallPhone := "+15550001111"
    openaiApiKey := "sk-test"
    twilioAccountSid := ""
    twilioAuthToken := ""
    twilioFromNumber := "" }

/-- An environment carrying only the two required variables. -/
def envMinimal : Env :=
  { oncallPhone := some "+15550001111"
    openaiApiKey := some "sk-test" }

/-- Claim C1: a `send_sms_to_number` destination that does not start with "+"
or is shorter than 11 characters fails validation with no event append and no
gateway send; a destination passing the check produces exactly one
`sms_attempt` event, carrying the destination and the 80-character message
preview, at the head of the trace — before any gateway send. -/
theorem sendSms_validation_and_attempt_order (cfg : Config) (gatewaySid toNumber message : String) :
    ((¬ "+".data.isPrefixOf toNumber.data ∨ toNumber.length < 11) →
      sendSmsExecute cfg gatewaySid toNumber message = ([], Except.error e164Message)) ∧
    (("+".data.isPrefixOf toNumber.data ∧ 11 ≤ toNumber.length) →
      ∃ rest, (sendSmsExecute cfg gatewaySid toNumber message).1
          = Action.logEvent (Event.smsAttempt toNumber (message.take 80)) :: rest
        ∧ ∀ a ∈ rest, a.isLogEvent = false) := by
  constructor
  · intro h
    unfold sendSmsExecute assertE164
    rw [if_pos h]
  · rintro ⟨h1, h2⟩
    have hneg : ¬ (¬ ("+".data.isPrefixOf toNumber.data = true) ∨ toNumber.length < 11) := by
      push_neg
      exact ⟨h1, h2⟩
    unfold sendSmsExecute assertE164
    rw [if_neg hneg]
    by_cases hs : smsSendEnabled cfg = false
    · rw [if_pos hs]
      exact ⟨[], rfl, by simp⟩
    · rw [if_neg hs]
      refine ⟨[Action.gatewaySend cfg.twilioFromNumber toNumber (message ++ optOutSuffix)],
        rfl, ?_⟩
      intro a ha
      simp only [List.mem_singleton] at ha
      subst ha
      rfl

/-- Concrete instances of C1: "5551234567" (no leading plus) is rejected with
no trace; "+15551234567" yields the attempt event at the head of the trace
followed only by non-event actions. -/
theorem sendSms_validation_and_attempt_order_witness :
    sendSmsExecute cfgFull "SM1" "5551234567" "hi" = ([], Except.error e164Message) ∧
    ∃ rest, (sendSmsExecute cfgFull "SM1" "+15551234567" "hi").1
        = Action.logEvent (Event.smsAttempt "+15551234567" ("hi".take 80)) :: rest
      ∧ ∀ a ∈ rest, a.isLogEvent = false :=
  ⟨(sendSms_validation_and_attempt_order cfgFull "SM1" "5551234567" "hi").1
      (Or.inl (by decide)),
   (sendSms_validation_and_attempt_order cfgFull "SM1" "+15551234567" "hi").2
      ⟨by decide, by decide⟩⟩

/-- Claim C4: with a valid destination and the gateway unconfigured, the tool
returns the explicit skipped result (an `ok`, not a failure), the trace holds
exactly the one `sms_attempt` event, and no gateway send occurs. -/
theorem sendSms_skipped_when_gateway_unconfigured (cfg : Config)
    (gatewaySid toNumber message : String)
    (hv : "+".data.isPrefixOf toNumber.data ∧ 11 ≤ toNumber.length)
    (hc : smsSendEnabled cfg = false) :
    sendSmsExecute cfg gatewaySid toNumber message
      = ([Action.logEvent (Event.smsAttempt toNumber (message.take 80))],
         Except.ok "Twilio not configured; SMS skipped.") := by
  have hneg : ¬ (¬ ("+".data.isPrefixOf toNumber.data = true) ∨ toNumber.length < 11) := by
    push_neg
    exact ⟨hv.1, hv.2⟩
  unfold sendSmsExecute assertE164
  rw [if_neg hneg, if_pos hc]

/-- Concrete instance of C4: valid number, blank Twilio credentials. -/
theorem sendSms_skipped_when_gateway_unconfigured_witness :
    sendSmsExecute cfgNoGateway "SM3" "+15551234567" "See you soon"
      = ([Action.logEvent (Event.smsAttempt "+15551234567" ("See you soon".take 80))],
         Except.ok "Twilio not configured; SMS skipped.") :=
  sendSms_skipped_when_gateway_unconfigured cfgNoGateway "SM3" "+15551234567" "See you soon"
    ⟨by decide, by decide⟩ (by decide)

/-- Claim C9: `assertE164` accepts exactly the strings that start with "+"
and have at least 11 characters; in particular "+abcdefghij", which contains
no digit, passes and the tool proceeds to the attempt event and the gateway
send. -/
theorem assertE164_shape_only :
    (∀ phone : String,
      assertE164 phone = Except.ok () ↔
        ("+".data.isPrefixOf phone.data ∧ 11 ≤ phone.length)) ∧
    assertE164 "+abcdefghij" = Except.ok () ∧
    sendSmsExecute cfgFull "SM2" "+abcdefghij" "Thanks for calling"
      = ([Action.logEvent (Event.smsAttempt "+abcdefghij" ("Thanks for calling".take 80)),
          Action.gatewaySend cfgFull.twilioFromNumber "+abcdefghij"
            ("Thanks for calling" ++ optOutSuffix)],
         Except.ok ("SMS sent: sid=" ++ "SM2")) := by
  refine ⟨?_, ?_, ?_⟩
  · intro phone
    unfold assertE164
    by_cases h : ¬ ("+".data.isPrefixOf phone.data = true) ∨ phone.length < 11
    · rw [if_pos h]
      constructor
      · intro hcontra
        cases hcontra
      · rintro ⟨h1, h2⟩
        exact absurd (by push_neg; exact ⟨h1, h2⟩ : ¬ _) (not_not_intro h)
    · rw [if_neg h]
      push_neg at h
      exact ⟨fun _ => ⟨h.1, h.2⟩, fun _ => rfl⟩
  · unfold assertE164
    rw [if_neg]
    decide
  · unfold sendSmsExecute assertE164
    rw [if_neg (by decide), if_neg (by decide)]

/-- Claim C2: `create_lead` writes exactly one `Lead` before returning; the
lead carries the generated id, the creation timestamp, the deployment's
business name and the fixed source tag; urgency defaults to normal when
unspecified; the returned confirmation contains the new id. -/
theorem createLead_assigns_and_writes_once (cfg : Config) (id createdAt : String)
    (args : CreateLeadArgs) :
    (createLeadExecute cfg id createdAt args).1
        = [Action.writeLead (storedLead cfg id createdAt args)] ∧
    (storedLead cfg id createdAt args).id = id ∧
    (storedLead cfg id createdAt args).createdAt = createdAt ∧
    (storedLead cfg id createdAt args).businessName = cfg.businessName ∧
    (storedLead cfg id createdAt args).source = some "twilio_call" ∧
    (args.urgency = none → (storedLead cfg id createdAt args).urgency = some Urgency.normal) ∧
    (createLeadExecute cfg id createdAt args).2 = "Lead stored with id " ++ id := by
  refine ⟨rfl, rfl, rfl, rfl, rfl, ?_, rfl⟩
  intro h
  simp [storedLead, h]

/-- Concrete instance of C2 at empty arguments, where urgency is unspecified
and therefore defaults to normal. -/
theorem createLead_assigns_and_writes_once_witness :
    (storedLead cfgFull "lead-1" "2026-10-11T00:00:00Z" {}).urgency = some Urgency.normal :=
  (createLead_assigns_and_writes_once cfgFull "lead-1" "2026-10-11T00:00:00Z"
    {}).2.2.2.2.2.1 rfl

/-- Claim C10: the `id`, `createdAt`, `businessName` and `source` fields of a
stored lead are assigned by the tool and are the same whatever the parsed
arguments are — the argument schema declares no fields of those names and zod
strips unknown keys, so `CreateLeadArgs` cannot carry them. -/
theorem createLead_protected_fields (cfg : Config) (id createdAt : String)
    (args : CreateLeadArgs) :
    (storedLead cfg id createdAt args).id = id ∧
    (storedLead cfg id createdAt args).createdAt = createdAt ∧
    (storedLead cfg id createdAt args).businessName = cfg.businessName ∧
    (storedLead cfg id createdAt args).source = some "twilio_call" ∧
    ∀ args2 : CreateLeadArgs,
      (storedLead cfg id createdAt args).id = (storedLead cfg id createdAt args2).id ∧
      (storedLead cfg id createdAt args).createdAt
          = (storedLead cfg id createdAt args2).createdAt ∧
      (storedLead cfg id createdAt args).businessName
          = (storedLead cfg id createdAt args2).businessName ∧
      (storedLead cfg id createdAt args).source = (storedLead cfg id createdAt args2).source :=
  ⟨rfl, rfl, rfl, rfl, fun _ => ⟨rfl, rfl, rfl, rfl⟩⟩

set_option maxHeartbeats 3200000 in
/-- Claim C7: reading the stored lead record back from the lead store
reproduces exactly the supplied field values, and every unsupplied optional
field is absent from the record (no key at all, hence no null). -/
theorem lead_store_roundtrip (cfg : Config) (id createdAt : String) (args : CreateLeadArgs) :
    (leadJson (storedLead cfg id createdAt args)).lookup "id" = some id ∧
    (leadJson (storedLead cfg id createdAt args)).lookup "createdAt" = some createdAt ∧
    (leadJson (storedLead cfg id createdAt args)).lookup "businessName"
        = some cfg.businessName ∧
    (leadJson (storedLead cfg id createdAt args)).lookup "callerPhone" = args.callerPhone ∧
    (leadJson (storedLead cfg id createdAt args)).lookup "callerName" = args.callerName ∧
    (leadJson (storedLead cfg id createdAt args)).lookup "serviceAddress"
        = args.serviceAddress ∧
    (leadJson (storedLead cfg id createdAt args)).lookup "issue" = args.issue ∧
    (leadJson (storedLead cfg id createdAt args)).lookup "urgency"
        = some (urgencyStr (args.urgency.getD Urgency.normal)) ∧
    (leadJson (storedLead cfg id createdAt args)).lookup "preferredTime"
        = args.preferredTime ∧
    (leadJson (storedLead cfg id createdAt args)).lookup "notes" = args.notes ∧
    (leadJson (storedLead cfg id createdAt args)).lookup "source" = some "twilio_call" ∧
    (args.callerPhone = none →
      ∀ p ∈ leadJson (storedLead cfg id createdAt args), p.1 ≠ "callerPhone") ∧
    (args.callerName = none →
      ∀ p ∈ leadJson (storedLead cfg id createdAt args), p.1 ≠ "callerName") ∧
    (args.serviceAddress = none →
      ∀ p ∈ leadJson (storedLead cfg id createdAt args), p.1 ≠ "serviceAddress") ∧
    (args.issue = none →
      ∀ p ∈ leadJson (storedLead cfg id createdAt args), p.1 ≠ "issue") ∧
    (args.preferredTime = none →
      ∀ p ∈ leadJson (storedLead cfg id createdAt args), p.1 ≠ "preferredTime") ∧
    (args.notes = none →
      ∀ p ∈ leadJson (storedLead cfg id createdAt args), p.1 ≠ "notes") := by
  rcases args with ⟨cp, cn, sa, iss, ur, pt, nt⟩
  cases cp <;> cases cn <;> cases sa <;> cases iss <;> cases pt <;> cases nt <;>
    simp only [leadJson, storedLead, optField, List.lookup, List.nil_append,
      List.cons_append, List.append_nil, List.mem_cons, List.not_mem_nil,
      Option.map_some, Option.map_none] <;>
    simp

/-- Concrete instance of C7: a lead with only an issue supplied keeps the
issue value and has no callerPhone key. -/
theorem lead_store_roundtrip_witness :
    (leadJson (storedLead cfgFull "lead-2" "2026-10-11T00:00:00Z"
        { issue := some "burst pipe" })).lookup "issue" = some "burst pipe" ∧
    ∀ p ∈ leadJson (storedLead cfgFull "lead-2" "2026-10-11T00:00:00Z"
        { issue := some "burst pipe" }), p.1 ≠ "callerPhone" := by
  have h := lead_store_roundtrip cfgFull "lead-2" "2026-10-11T00:00:00Z"
    { issue := some "burst pipe" }
  exact ⟨h.2.2.2.2.2.2.1, h.2.2.2.2.2.2.2.2.2.2.2.1 rfl⟩

/-- Claim C8: `escalate_to_oncall` first appends exactly one escalation event
(reason defaulting to "emergency"); with a configured gateway it then sends
exactly one formatted alert to the configured on-call number and returns a
confirmation carrying the provider's message id; otherwise it returns the
skipped result with no send. -/
theorem escalate_logs_then_alerts (cfg : Config) (gatewaySid : String) (args : EscalateArgs) :
    (args.reason = none → args.reason.getD "emergency" = "emergency") ∧
    (smsSendEnabled cfg = false →
      escalateExecute cfg gatewaySid args
        = ([Action.logEvent (Event.escalation (args.reason.getD "emergency")
              args.callerPhone args.serviceAddress args.issue)],
           "Twilio not configured; escalation SMS skipped.")) ∧
    (smsSendEnabled cfg = true →
      escalateExecute cfg gatewaySid args
        = ([Action.logEvent (Event.escalation (args.reason.getD "emergency")
              args.callerPhone args.serviceAddress args.issue),
            Action.gatewaySend cfg.twilioFromNumber cfg.oncallPhone
              (escalationBody cfg args (args.reason.getD "emergency"))],
           "Escalation SMS sent: sid=" ++ gatewaySid)) := by
  refine ⟨fun h => by simp [h], fun h => ?_, fun h => ?_⟩
  · unfold escalateExecute
    rw [if_pos h]
  · unfold escalateExecute
    rw [if_neg]
    simp [h]

/-- Concrete instances of C8: the skipped branch with blank credentials, the
send branch with full credentials, and the reason default at empty args. -/
theorem escalate_logs_then_alerts_witness :
    escalateExecute cfgNoGateway "SM9" {}
      = ([Action.logEvent (Event.escalation (({} : EscalateArgs).reason.getD "emergency")
            ({} : EscalateArgs).callerPhone ({} : EscalateArgs).serviceAddress
            ({} : EscalateArgs).issue)],
         "Twilio not configured; escalation SMS skipped.") ∧
    escalateExecute cfgFull "SM9" {}
      = ([Action.logEvent (Event.escalation (({} : EscalateArgs).reason.getD "emergency")
            ({} : EscalateArgs).callerPhone ({} : EscalateArgs).serviceAddress
            ({} : EscalateArgs).issue),
          Action.gatewaySend cfgFull.twilioFromNumber cfgFull.oncallPhone
            (escalationBody cfgFull {} (({} : EscalateArgs).reason.getD "emergency"))],
         "Escalation SMS sent: sid=" ++ "SM9") ∧
    ({} : EscalateArgs).reason.getD "emergency" = "emergency" :=
  ⟨(escalate_logs_then_alerts cfgNoGateway "SM9" {}).2.1 (by decide),
   (escalate_logs_then_alerts cfgFull "SM9" {}).2.2 (by decide),
   (escalate_logs_then_alerts cfgFull "SM9" {}).1 rfl⟩

/-- Claim C6: startup fails when the on-call number or the voice-backend
credential is absent; with both present (and non-empty), startup succeeds
whatever the other variables are, with the port and business name taking
their defaults when absent, blank gateway credentials, and the public host
kept optional. -/
theorem startup_env_requirements (env : Env) :
    ((env.oncallPhone = none ∨ env.openaiApiKey = none) → loadConfig env = none) ∧
    (∀ oncall key : String, env.oncallPhone = some oncall → oncall ≠ "" →
      env.openaiApiKey = some key → key ≠ "" →
      ∃ cfg : Config, loadConfig env = some cfg ∧
        (env.port = none → cfg.port = "5050") ∧
        (env.businessName = none → cfg.businessName = "NY Plumbing (Pilot)") ∧
        (env.twilioAccountSid = none → cfg.twilioAccountSid = "") ∧
        (env.twilioAuthToken = none → cfg.twilioAuthToken = "") ∧
        (env.twilioFromNumber = none → cfg.twilioFromNumber = "") ∧
        cfg.publicHost = env.publicHost ∧
        cfg.oncallPhone = oncall ∧ cfg.openaiApiKey = key) := by
  constructor
  · rintro (h | h)
    · simp [loadConfig, mustEnv, h]
    · have hkey : mustEnv env.openaiApiKey = none := by rw [h]; rfl
      unfold loadConfig
      rw [hkey]
      cases mustEnv env.oncallPhone <;> rfl
  · intro oncall key h1 h2 h3 h4
    have hload : loadConfig env = some
        { port := envOrDefault env.port "5050"
          publicHost := env.publicHost
          businessName := envOrDefault env.businessName "NY Plumbing (Pilot)"
          oncallPhone := oncall
          openaiApiKey := key
          twilioAccountSid := env.twilioAccountSid.getD ""
          twilioAuthToken := env.twilioAuthToken.getD ""
          twilioFromNumber := env.twilioFromNumber.getD "" } := by
      simp [loadConfig, mustEnv, h1, h3, beq_iff_eq, h2, h4]
    refine ⟨_, hload, ?_, ?_, ?_, ?_, ?_, rfl, rfl, rfl⟩
    · intro h
      simp [envOrDefault, h]
    · intro h
      simp [envOrDefault, h]
    · intro h
      simp [h]
    · intro h
      simp [h]
    · intro h
      simp [h]

/-- Concrete instances of C6: an environment missing the on-call number does
not start; the minimal environment starts with defaulted port and business
name and blank gateway credentials. -/
theorem startup_env_requirements_witness :
    loadConfig ({ openaiApiKey := some "sk-test" } : Env) = none ∧
    ∃ cfg : Config, loadConfig envMinimal = some cfg ∧
      (envMinimal.port = none → cfg.port = "5050") ∧
      (envMinimal.businessName = none → cfg.businessName = "NY Plumbing (Pilot)") ∧
      (envMinimal.twilioAccountSid = none → cfg.twilioAccountSid = "") ∧
      (envMinimal.twilioAuthToken = none → cfg.twilioAuthToken = "") ∧
      (envMinimal.twilioFromNumber = none → cfg.twilioFromNumber = "") ∧
      cfg.publicHost = envMinimal.publicHost ∧
      cfg.oncallPhone = "+15550001111" ∧ cfg.openaiApiKey = "sk-test" :=
  ⟨(startup_env_requirements { openaiApiKey := some "sk-test" }).1 (Or.inl rfl),
   (startup_env_requirements envMinimal).2 "+15550001111" "sk-test" rfl (by decide)
     rfl (by decide)⟩

/-- Claim C3: session teardown is idempotent — the second invocation returns
the very state the first produced and emits no events, no teardown invocation
emits an error event, and after teardown the backend connection and both
subscriptions are released.  The teardown operation itself is modelled from
the spec (see `teardown`), since the repository delegates it to the external
realtime-session library. -/
theorem teardown_idempotent (s : SessionHandle) :
    teardown (teardown s).1 = ((teardown s).1, []) ∧
    (teardown s).2 = [] ∧
    (teardown s).1.backendConnected = false ∧
    (teardown s).1.transportSubscribed = false ∧
    (teardown s).1.errorSubscribed = false := by
  rcases s with ⟨b1, b2, b3⟩
  cases b1 <;> cases b2 <;> cases b3 <;> simp [teardown]

/-- Counterexample to claim C5: at a concrete faulty sink, the transport-event
handler itself raises — the bridge installs no catch around the append, so the
log-sink fault propagates past the handler instead of degrading to
best-effort. -/
theorem transport_handler_raises_on_sink_fault :
    onTransportEvent { entries := [], sinkFaulty := true } (some "media")
      = Except.error "EIO: append failed" := rfl

/-- Amended claim C5: each handler appends the corresponding event and does
nothing else when the sink is healthy, but a failing append propagates out of
the handler as an error. -/
theorem handlers_append_once_or_propagate (log : EventLog) (evtType : Option String)
    (err : String) :
    (log.sinkFaulty = false →
      onTransportEvent log evtType
          = Except.ok { entries := log.entries ++ [Event.transportEvent (evtType.getD "unknown")],
                        sinkFaulty := false } ∧
      onSessionError log err
          = Except.ok { entries := log.entries ++ [Event.sessionError err],
                        sinkFaulty := false }) ∧
    (log.sinkFaulty = true →
      onTransportEvent log evtType = Except.error "EIO: append failed" ∧
      onSessionError log err = Except.error "EIO: append failed") := by
  constructor <;> intro h <;>
    simp [onTransportEvent, onSessionError, appendEvent, h]

/-- Concrete instances of the amended C5 on a healthy and on a faulty sink. -/
theorem handlers_append_once_or_propagate_witness :
    (onTransportEvent { entries := [], sinkFaulty := false } (some "start")
        = Except.ok { entries := [Event.transportEvent "start"], sinkFaulty := false } ∧
     onSessionError { entries := [], sinkFaulty := false } "socket closed"
        = Except.ok { entries := [Event.sessionError "socket closed"], sinkFaulty := false }) ∧
    (onTransportEvent { entries := [], sinkFaulty := true } none
        = Except.error "EIO: append failed" ∧
     onSessionError { entries := [], sinkFaulty := true } "socket closed"
        = Except.error "EIO: append failed") :=
  ⟨(handlers_append_once_or_propagate { entries := [], sinkFaulty := false }
      (some "start") "socket closed").1 rfl,
   (handlers_append_once_or_propagate { entries := [], sinkFaulty := true }
      none "socket closed").2 rfl⟩

end VoiceAgent
